import Mathlib

/-!
Verification of the bicameral replicated-messaging core.

This file gives a shallow embedding, in Lean 4, of the parts of the
repository that the specification's claims are about:

* `src/scripts/bicameral/client.py` — the `BicameralClient` class:
  connection resolution (`_connect_redis`), publishing (`send`),
  subscription (`listen`), and the disk overflow store
  (`_save_to_fallback`);
* `src/scripts/bicameral/sync.py` — the `RedisSyncDaemon` class:
  the two batch replication functions (`sync_local_to_vps`,
  `sync_vps_to_local`), cursor persistence (`_save_sync_state`),
  reconnection (`_reconnect_vps`) and the main loop (`run`).

The broker (Redis) is external to the repository.  Its stream operations
are embedded with the semantics both the spec and Redis give them: a
stream is an append-only ordered sequence of records whose ids strictly
increase in append order, so an `XADD` carrying an explicit id succeeds
exactly when that id is larger than the current top id of the stream,
and is rejected otherwise (this covers both a true duplicate and an
out-of-order id).  Reads from a cursor return the records whose id is
strictly greater than the cursor, bounded by a batch size.

Effects are made explicit: fallible broker calls take outcome oracles
(per-call Booleans saying whether the call raises), and functions that
the claims observe through their side effects also return a trace of the
operations they performed.
-/

namespace Bicameral

/-! ## Durable log (Redis stream) model -/

/-- One record of a durable log: a broker-side record id (the spec's
"record id", comparable with `<`; Redis uses a millisecond/sequence pair,
modelled here as a single `Nat`) together with the serialized payload
stored under it. -/
structure StreamEntry where
  id : Nat
  data : String
deriving Repr, DecidableEq

/-- The id of the newest record of a log (`0` for an empty log).  Logs
built by appends have strictly increasing ids, so the newest id is the
maximum. -/
def streamTop (log : List StreamEntry) : Nat :=
  log.foldl (fun acc e => max acc e.id) 0

/-- Embedding of the broker's `XADD` with an explicit id (the
id-preserving append used by the sync daemon).  The broker accepts the
append exactly when the given id is strictly greater than the top id of
the stream — the invariant of §3 ("within a single log, record ids
strictly increase in append order") — and rejects it otherwise, which is
what Redis does for an id that is already present or below the top. -/
def xaddWithId (log : List StreamEntry) (e : StreamEntry) : Except Unit (List StreamEntry) :=
  if streamTop log < e.id then Except.ok (log ++ [e]) else Except.error Unit.unit

/-- Embedding of `XREAD` from a cursor: the records with id strictly
greater than `lastId`, in log order, limited to `count` records. -/
def xreadAfter (log : List StreamEntry) (lastId : Nat) (count : Nat) : List StreamEntry :=
  (log.filter (fun e => decide (lastId < e.id))).take count

/-! ## Connection Resolver (`BicameralClient._connect_redis`) -/

/-- A candidate connection target, as assembled by `_connect_redis`:
host, port, password, the `socket_connect_timeout` passed to the client
constructor, and the human-readable description used in log lines. -/
structure Endpoint where
  host : String
  port : Nat
  password : String
  socketConnectTimeout : Nat
  description : String
deriving Repr, DecidableEq

/-- The local endpoint, first in the candidate list (defaults of
`LOCAL_REDIS_HOST`, `LOCAL_REDIS_PORT`, `LOCAL_REDIS_PASSWORD`). -/
def localEndpoint : Endpoint :=
  { host := "localhost", port := 6379, password := "bicameral_secret_local",
    socketConnectTimeout := 3, description := "Local Redis (PRIMARY)" }

/-- The VPS endpoint, second in the candidate list (defaults of
`REDIS_HOST`, `REDIS_PORT`, `REDIS_PASSWORD`). -/
def vpsEndpoint : Endpoint :=
  { host := "100.111.230.6", port := 6379, password := "bicameral_vps_secret",
    socketConnectTimeout := 3, description := "VPS via Tailscale (FALLBACK)" }

/-- The ordered candidate list `hosts_to_try` rebuilt on every call of
`_connect_redis`: local first, VPS second. -/
def hostsToTry : List Endpoint := [localEndpoint, vpsEndpoint]

/-- The failure raised by `_connect_redis` when no candidate answers
(`ConnectionError("No Redis available...")`). -/
inductive ConnectError where
  | noRedisAvailable
deriving Repr, DecidableEq

/-- Embedding of `_connect_redis`.  `live e` models whether endpoint `e`
currently answers the liveness probe (`r.ping()`) within its connect
timeout.  The loop tries the candidates in order and returns the first
live one; if none answers it raises. -/
def connectRedis (live : Endpoint → Bool) : Except ConnectError Endpoint :=
  match hostsToTry.find? live with
  | some e => Except.ok e
  | none => Except.error ConnectError.noRedisAvailable

/-! ## Sync daemon batch replication (`RedisSyncDaemon.sync_local_to_vps`,
`RedisSyncDaemon.sync_vps_to_local`)

The daemon holds two logs (local and VPS), one replay cursor per
direction (`local_last_id`, `vps_last_id`) and the connection flag for
the VPS handle (`self.vps is not None`).  Inside a batch, each record
read from the source is appended to the counterpart with its original
id inside a bare try/except that swallows every exception — a
duplicate-id rejection as well as a genuine transport failure — and the
cursor is then advanced to that record's id unconditionally.  The
`transportFails` oracle says, per record id, whether the id-preserving
append raises for a transport reason (as opposed to being rejected by
the broker through `xaddWithId`). -/

/-- The in-memory state of `RedisSyncDaemon` that the batch functions
read and write. -/
structure SyncState where
  localLog : List StreamEntry
  vpsLog : List StreamEntry
  localLastId : Nat
  vpsLastId : Nat
  vpsConnected : Bool
deriving Repr, DecidableEq

/-- The inner `try: xadd(..., id=msg_id) except: pass` of both sync
directions: the append is attempted, and any failure — transport or
broker rejection — leaves the destination log as it was. -/
def tryAddSwallow (transportFails : Nat → Bool) (log : List StreamEntry)
    (e : StreamEntry) : List StreamEntry :=
  if transportFails e.id then log
  else
    match xaddWithId log e with
    | Except.ok l => l
    | Except.error _ => log

/-- One iteration of the per-record loop of a sync batch: attempt the
id-preserving append into the destination log, then advance the cursor
to the record's id (`self.local_last_id = msg_id`, run unconditionally
after the swallowed append). -/
def syncBatchStep (transportFails : Nat → Bool)
    (acc : List StreamEntry × Nat) (e : StreamEntry) : List StreamEntry × Nat :=
  (tryAddSwallow transportFails acc.1 e, e.id)

/-- Embedding of `sync_local_to_vps`: return immediately when the VPS
handle is absent; otherwise read up to 100 records of the local log past
the `local_last_id` cursor and replay them onto the VPS log. -/
def syncLocalToVps (transportFails : Nat → Bool) (s : SyncState) : SyncState :=
  if s.vpsConnected = false then s
  else
    let entries := xreadAfter s.localLog s.localLastId 100
    let r := entries.foldl (syncBatchStep transportFails) (s.vpsLog, s.localLastId)
    { s with vpsLog := r.1, localLastId := r.2 }

/-- Embedding of `sync_vps_to_local`: the mirror direction, reading the
VPS log past `vps_last_id` and replaying onto the local log. -/
def syncVpsToLocal (transportFails : Nat → Bool) (s : SyncState) : SyncState :=
  if s.vpsConnected = false then s
  else
    let entries := xreadAfter s.vpsLog s.vpsLastId 100
    let r := entries.foldl (syncBatchStep transportFails) (s.localLog, s.vpsLastId)
    { s with localLog := r.1, vpsLastId := r.2 }

/-- One full bidirectional pass of the daemon's main loop: local → VPS
first, then VPS → local (the order of `run`). -/
def syncPass (transportFails : Nat → Bool) (s : SyncState) : SyncState :=
  syncVpsToLocal transportFails (syncLocalToVps transportFails s)

/-- A transport oracle under which every append call reaches the broker
(no transport failures at all). -/
def noTransportFailure : Nat → Bool := fun _ => false

/-- The scenario state of the spec: the local log holds records with ids
1, 2, 3, the VPS log holds records with ids 1, 2, 4, ids 1 and 2 are
already replicated both ways (both cursors sit at 2), and the VPS is
connected. -/
def scenarioState : SyncState :=
  { localLog := [⟨1, "m1"⟩, ⟨2, "m2"⟩, ⟨3, "m3"⟩],
    vpsLog := [⟨1, "m1"⟩, ⟨2, "m2"⟩, ⟨4, "m4"⟩],
    localLastId := 2, vpsLastId := 2, vpsConnected := true }

/-- The id of the last record of a batch, or the default cursor when the
batch is empty — the value the per-record loop leaves in the direction's
cursor. -/
def lastIdD (es : List StreamEntry) (d : Nat) : Nat :=
  match es with
  | [] => d
  | e :: rest => lastIdD rest e.id

/-! ## Message Bus publish (`BicameralClient.send`,
`BicameralClient._save_to_fallback`) -/

/-- The payload dictionary built by `send`.  Field names follow the
JSON keys: `id`, `timestamp`, `from` (here `fromAgent`, since `from` is
reserved), `to` (here `toAgent`), `type` (here `msgType`), `message`. -/
structure Payload where
  id : String
  timestamp : String
  fromAgent : String
  toAgent : String
  msgType : String
  message : String
deriving Repr, DecidableEq

/-- Stable serialization of a payload, standing for
`json.dumps(payload)`: the claims use it only as an opaque, injective
line encoding (one serialized message per overflow line). -/
def serializePayload (p : Payload) : String :=
  p.id ++ "|" ++ p.timestamp ++ "|" ++ p.fromAgent ++ "|" ++ p.toAgent
    ++ "|" ++ p.msgType ++ "|" ++ p.message

/-- The stream key `STREAM_KEY` (default of the `STREAM_KEY` env var). -/
def streamKey : String := "bicameral:stream:collab"

/-- The global notification channel used by `send`. -/
def realtimeChannel : String := "bicameral:realtime"

/-- The directed channel `send` publishes on, named by the (sender,
recipient) pair. -/
def directedChannel (fromAgent toAgent : String) : String :=
  fromAgent ++ ":to_" ++ toAgent

/-- A broker call made by `send`, in the order it was issued: the
durable append (`xadd`) or a notification broadcast (`publish`). -/
inductive RedisOp where
  | xaddOp : String → String → RedisOp
  | publishOp : String → String → RedisOp
deriving Repr, DecidableEq

/-- Everything observable about one `send` call: the returned value
(`some` stream id on success, `none` after the except path returned
`None`), the broker calls issued in order, the overflow file contents
after the call, how many times the durable append was attempted, and
how many times `_connect_redis` was re-invoked during the call. -/
structure SendResult where
  result : Option String
  trace : List RedisOp
  fallback : List String
  xaddAttempts : Nat
  resolverCalls : Nat
deriving Repr, DecidableEq

/-- Embedding of `send` on an already-built payload.  The body is one
`try` around three broker calls in order — `xadd` on the stream, then
`publish` on the global channel, then `publish` on the directed channel
— whose outcomes are given by `opFails` (indexed 0, 1, 2 in call
order); the first failing call jumps to the `except` branch, which
appends one serialized line to the overflow file (`_save_to_fallback`,
itself swallowing a disk failure, modelled by `fallbackWriteFails`) and
returns `None`.  `send` performs no reconnection and no retry, so the
append is attempted at most once and the resolver is never re-invoked. -/
def sendPayload (opFails : Nat → Bool) (fallbackWriteFails : Bool)
    (streamId : String) (fallback0 : List String) (p : Payload) : SendResult :=
  let line := serializePayload p
  let fallbackAfter := if fallbackWriteFails then fallback0 else fallback0 ++ [line]
  if opFails 0 then
    { result := none, trace := [RedisOp.xaddOp streamKey line],
      fallback := fallbackAfter, xaddAttempts := 1, resolverCalls := 0 }
  else if opFails 1 then
    { result := none,
      trace := [RedisOp.xaddOp streamKey line, RedisOp.publishOp realtimeChannel line],
      fallback := fallbackAfter, xaddAttempts := 1, resolverCalls := 0 }
  else if opFails 2 then
    { result := none,
      trace := [RedisOp.xaddOp streamKey line, RedisOp.publishOp realtimeChannel line,
        RedisOp.publishOp (directedChannel p.fromAgent p.toAgent) line],
      fallback := fallbackAfter, xaddAttempts := 1, resolverCalls := 0 }
  else
    { result := some streamId,
      trace := [RedisOp.xaddOp streamKey line, RedisOp.publishOp realtimeChannel line,
        RedisOp.publishOp (directedChannel p.fromAgent p.toAgent) line],
      fallback := fallback0, xaddAttempts := 1, resolverCalls := 0 }

/-- Embedding of `send` as called: it builds the payload from the
client's agent name, the recipient, the type and the content, with the
ambient uuid and timestamp, then runs the body above. -/
def send (opFails : Nat → Bool) (fallbackWriteFails : Bool)
    (streamId uuid timestamp : String) (fallback0 : List String)
    (agentName toAgent messageType content : String) : SendResult :=
  sendPayload opFails fallbackWriteFails streamId fallback0
    { id := uuid, timestamp := timestamp, fromAgent := agentName,
      toAgent := toAgent, msgType := messageType, message := content }

/-! ## Message Bus subscription (`BicameralClient.listen`) -/

/-- What one turn of the `listen` loop observes: a batch of parsed
payloads returned by the blocking stream read, a
`redis.ConnectionError` raised by the read (connection loss, carrying
the endpoint liveness in effect when `_connect_redis` is then
re-invoked), or a `KeyboardInterrupt`. -/
inductive ListenStep where
  | batch : List Payload → ListenStep
  | connLost : (Endpoint → Bool) → ListenStep
  | interrupt : ListenStep

/-- How a `listen` call ends (or that the modelling fuel ran out while
the loop was still going). -/
inductive ListenOutcome where
  | running
  | stopped
  | raisedNoRedis
deriving Repr, DecidableEq

/-- The delivery filter of `listen`: the payload's `to` must be the
sentinel `all` or the subscribing agent, and its `from` must differ from
the subscribing agent (no self-echo); only then is the callback run. -/
def listenFilter (agentName : String) (p : Payload) : Bool :=
  (p.toAgent == "all" || p.toAgent == agentName) && p.fromAgent != agentName

/-- Embedding of the `listen` loop.  Per batch, each entry's payload is
run through the delivery filter and the callback receives the survivors
in arrival order (`acc` collects the delivered payloads).  On a
`redis.ConnectionError` the loop re-invokes `_connect_redis` with the
current liveness: on success it simply continues listening; when the
resolver itself finds no endpoint, its `ConnectionError` escapes the
loop (the outer handler only catches `KeyboardInterrupt`), so `listen`
raises to the caller.  A `KeyboardInterrupt` stops the listener.
Cursor bookkeeping (`current_id`) and entries whose JSON fails to parse
(skipped with a warning) are not observed by any claim and are elided. -/
def listenLoop (agentName : String) (sched : List ListenStep)
    (acc : List Payload) : ListenOutcome × List Payload :=
  match sched with
  | [] => (ListenOutcome.running, acc)
  | ListenStep.batch ps :: rest =>
      listenLoop agentName rest (acc ++ ps.filter (listenFilter agentName))
  | ListenStep.connLost live :: rest =>
      match connectRedis live with
      | Except.ok _ => listenLoop agentName rest acc
      | Except.error _ => (ListenOutcome.raisedNoRedis, acc)
  | ListenStep.interrupt :: _ => (ListenOutcome.stopped, acc)

/-! ## Sync daemon main loop (`RedisSyncDaemon.run`, `_save_sync_state`,
`_reconnect_vps`)

This part of the embedding adds what the batch model above leaves out:
the persisted cursor blob (`sync:state`, written by `_save_sync_state`
into the local broker and swallowing its own failures), the reconnect
helper `_reconnect_vps` (called only from the two outer exception
handlers of the sync functions, and returning immediately when
`self.vps` is already set — the code never clears the handle), and the
`while self.running` loop that runs both directions, sleeps, and flips
`running` on `KeyboardInterrupt`.  The loop is driven by a schedule of
per-iteration oracles; an empty remaining schedule means the model ran
out of fuel while the daemon was still looping.  Observable actions are
collected as events: a fresh connection probe of the VPS endpoint, and
a successful persist of the cursor pair. -/

/-- The outcome oracle for one iteration of the main loop: whether the
source-side blocking read of either direction raises, which record ids
suffer an append transport failure, whether the cursor persist raises,
whether a fresh probe of the VPS endpoint would succeed right now, and
whether a `KeyboardInterrupt` arrives during this iteration's sleep. -/
structure IterOracle where
  localReadFails : Bool
  vpsReadFails : Bool
  transportFails : Nat → Bool
  saveFails : Bool
  vpsReachable : Bool
  interrupt : Bool

/-- An observable action of the daemon: a fresh connection attempt to
the VPS endpoint, or a successful persist of the cursor pair. -/
inductive DEvent where
  | probeVps : DEvent
  | savedState : Nat → Nat → DEvent
deriving Repr, DecidableEq

/-- The daemon state the main loop works on: the two logs and cursors
with the VPS connection flag, the persisted cursor blob (if any persist
has ever succeeded), and the `running` flag. -/
structure DaemonState where
  sync : SyncState
  persisted : Option (Nat × Nat)
  running : Bool
deriving Repr, DecidableEq

/-- Embedding of `_reconnect_vps`: when the handle is already set the
function returns at once, probing nothing; only when the handle is
absent does it build a fresh client and ping it, succeeding exactly when
the VPS is reachable and swallowing the failure otherwise. -/
def reconnectVps (vpsReachable : Bool) (s : SyncState) : SyncState × List DEvent :=
  if s.vpsConnected then (s, [])
  else if vpsReachable then ({ s with vpsConnected := true }, [DEvent.probeVps])
  else (s, [DEvent.probeVps])

/-- Embedding of `_save_sync_state`: write both cursors as one blob into
the local broker; a failure of the write is swallowed and leaves the
previously persisted blob in place. -/
def saveSyncState (saveFails : Bool) (d : DaemonState) : DaemonState × List DEvent :=
  if saveFails then (d, [])
  else ({ d with persisted := some (d.sync.localLastId, d.sync.vpsLastId) },
        [DEvent.savedState d.sync.localLastId d.sync.vpsLastId])

/-- Embedding of `sync_local_to_vps` as run by the loop: return at once
when the VPS handle is absent; otherwise read the local log past the
cursor — a raising read lands in the outer handler, which calls
`_reconnect_vps` (a no-op probe-wise, the handle being set) — and on a
non-empty batch replay it onto the VPS log and persist the cursors. -/
def syncLocalToVpsRun (o : IterOracle) (d : DaemonState) : DaemonState × List DEvent :=
  if d.sync.vpsConnected = false then (d, [])
  else if o.localReadFails then
    let r := reconnectVps o.vpsReachable d.sync
    ({ d with sync := r.1 }, r.2)
  else
    let entries := xreadAfter d.sync.localLog d.sync.localLastId 100
    if entries.isEmpty then (d, [])
    else
      let r := entries.foldl (syncBatchStep o.transportFails) (d.sync.vpsLog, d.sync.localLastId)
      saveSyncState o.saveFails
        { d with sync := { d.sync with vpsLog := r.1, localLastId := r.2 } }

/-- Embedding of `sync_vps_to_local` as run by the loop: the mirror
direction. -/
def syncVpsToLocalRun (o : IterOracle) (d : DaemonState) : DaemonState × List DEvent :=
  if d.sync.vpsConnected = false then (d, [])
  else if o.vpsReadFails then
    let r := reconnectVps o.vpsReachable d.sync
    ({ d with sync := r.1 }, r.2)
  else
    let entries := xreadAfter d.sync.vpsLog d.sync.vpsLastId 100
    if entries.isEmpty then (d, [])
    else
      let r := entries.foldl (syncBatchStep o.transportFails) (d.sync.localLog, d.sync.vpsLastId)
      saveSyncState o.saveFails
        { d with sync := { d.sync with localLog := r.1, vpsLastId := r.2 } }

/-- One iteration of the `while self.running` body: local → VPS, then
VPS → local, then the sleep, during which a `KeyboardInterrupt` may
arrive; the handler logs and clears `running`, nothing more. -/
def runIter (o : IterOracle) (d : DaemonState) : DaemonState × List DEvent :=
  let r1 := syncLocalToVpsRun o d
  let r2 := syncVpsToLocalRun o r1.1
  if o.interrupt then ({ r2.1 with running := false }, r1.2 ++ r2.2)
  else (r2.1, r1.2 ++ r2.2)

/-- Embedding of the main loop of `run` after a successful `connect`:
iterate the body while `running` holds; when the flag is cleared the
loop exits and `run` returns after a log line — it performs no further
persist and no other action on the way out. -/
def runDaemon (d : DaemonState) (sched : List IterOracle) : DaemonState × List DEvent :=
  match sched with
  | [] => (d, [])
  | o :: rest =>
      if d.running = false then (d, [])
      else
        let r := runIter o d
        let rr := runDaemon r.1 rest
        (rr.1, r.2 ++ rr.2)

/-! ## Lemmas and claim theorems -/

lemma connectRedis_local_live (live : Endpoint → Bool) (h : live localEndpoint = true) :
    connectRedis live = Except.ok localEndpoint := by
  simp [connectRedis, hostsToTry, List.find?, h]

lemma connectRedis_vps_fallback (live : Endpoint → Bool)
    (h1 : live localEndpoint = false) (h2 : live vpsEndpoint = true) :
    connectRedis live = Except.ok vpsEndpoint := by
  simp [connectRedis, hostsToTry, List.find?, h1, h2]

lemma connectRedis_none_live (live : Endpoint → Bool)
    (h1 : live localEndpoint = false) (h2 : live vpsEndpoint = false) :
    connectRedis live = Except.error ConnectError.noRedisAvailable := by
  simp [connectRedis, hostsToTry, List.find?, h1, h2]

/-- Claim C2: connection resolution tries the candidates in priority
order, local first: it returns the first endpoint that answers the
liveness probe (so local whenever local is live, the VPS exactly when
local is down and the VPS is live), fails with the no-endpoint error
when neither answers, and — being a function of the current liveness
only, rebuilt from the head of the list on every call — every
re-invocation restarts from the local endpoint, so a recovered local
broker is returned by the next resolution even if a previous resolution
returned the VPS handle.  Each candidate's probe timeout is bounded
(between 2 and 5 seconds). -/
theorem C2_connect_local_first :
    (∀ live : Endpoint → Bool, live localEndpoint = true →
      connectRedis live = Except.ok localEndpoint) ∧
    (∀ live : Endpoint → Bool, live localEndpoint = false → live vpsEndpoint = true →
      connectRedis live = Except.ok vpsEndpoint) ∧
    (∀ live : Endpoint → Bool, live localEndpoint = false → live vpsEndpoint = false →
      connectRedis live = Except.error ConnectError.noRedisAvailable) ∧
    (∀ e ∈ hostsToTry, 2 ≤ e.socketConnectTimeout ∧ e.socketConnectTimeout ≤ 5) := by
  refine ⟨connectRedis_local_live, connectRedis_vps_fallback, connectRedis_none_live, ?_⟩
  · intro e he
    simp [hostsToTry] at he
    rcases he with h | h <;> subst h <;> simp [localEndpoint, vpsEndpoint]

/-- Witness for C2 at concrete liveness assignments: the scenario of the
spec — with local down and the VPS up the resolver returns the VPS
endpoint; at the next call, with local back up, it returns the local
endpoint; with both down it fails. -/
theorem C2_connect_local_first_witness :
    connectRedis (fun e => decide (e = vpsEndpoint)) = Except.ok vpsEndpoint ∧
    connectRedis (fun _ => true) = Except.ok localEndpoint ∧
    connectRedis (fun _ => false) = Except.error ConnectError.noRedisAvailable := by
  refine ⟨?_, ?_, ?_⟩
  · exact C2_connect_local_first.2.1 (fun e => decide (e = vpsEndpoint))
      (by decide) (by decide)
  · exact C2_connect_local_first.1 (fun _ => true) rfl
  · exact C2_connect_local_first.2.2.1 (fun _ => false) rfl rfl

/-- Claim C1, evaluated at the failing input.  Replaying a record id the
destination already has is indeed a swallowed no-op treated as success,
but the claimed consequence fails: after one full bidirectional pass
with a perfectly healthy transport, starting from local ids [1,2,3] and
VPS ids [1,2,4], the local log does reach ids [1,2,3,4], while the VPS
log still holds only ids [1,2,4] — record 3 is not in it, and both
cursors have moved past it (to 3 and 4), so it will never be offered to
the VPS again.  The append of id 3 onto a log whose top id is 4 is
rejected by the broker, the bare except swallows the rejection exactly
as it swallows a duplicate, and the cursor advances anyway. -/
theorem C1_sync_scenario_diverges :
    (syncPass noTransportFailure scenarioState).localLog.map StreamEntry.id = [1, 2, 3, 4] ∧
    (syncPass noTransportFailure scenarioState).vpsLog.map StreamEntry.id = [1, 2, 4] ∧
    ¬ (3 ∈ (syncPass noTransportFailure scenarioState).vpsLog.map StreamEntry.id) ∧
    (syncPass noTransportFailure scenarioState).localLastId = 3 ∧
    (syncPass noTransportFailure scenarioState).vpsLastId = 4 := by
  refine ⟨?_, ?_, ?_, ?_, ?_⟩ <;> decide

lemma foldl_syncBatchStep_snd (tf : Nat → Bool) :
    ∀ (es : List StreamEntry) (acc : List StreamEntry × Nat),
      (es.foldl (syncBatchStep tf) acc).2 = lastIdD es acc.2
  | [], _ => rfl
  | e :: es, acc => by
      simp only [List.foldl_cons, lastIdD]
      exact foldl_syncBatchStep_snd tf es (syncBatchStep tf acc e)

lemma lastIdD_self_or_mem :
    ∀ (es : List StreamEntry) (d : Nat),
      lastIdD es d = d ∨ lastIdD es d ∈ es.map StreamEntry.id
  | [], _ => Or.inl rfl
  | e :: es, d => by
      simp only [lastIdD, List.map_cons]
      rcases lastIdD_self_or_mem es e.id with h | h
      · rw [h]
        exact Or.inr (List.mem_cons_self _ _)
      · exact Or.inr (List.mem_cons_of_mem _ h)

lemma le_lastIdD :
    ∀ (es : List StreamEntry) (d : Nat),
      (es.map StreamEntry.id).Pairwise (· < ·) →
      ∀ e ∈ es, e.id ≤ lastIdD es d
  | [], _, _, e, he => absurd he (List.not_mem_nil e)
  | a :: es, d, h, e, he => by
      simp only [List.map_cons, List.pairwise_cons] at h
      simp only [lastIdD]
      rcases List.mem_cons.mp he with rfl | he
      · rcases lastIdD_self_or_mem es e.id with heq | hmem
        · exact le_of_eq heq.symm
        · exact le_of_lt (h.1 _ hmem)
      · exact le_lastIdD es a.id h.2 e he

lemma mem_xreadAfter_lt {log : List StreamEntry} {c n : Nat} {e : StreamEntry}
    (h : e ∈ xreadAfter log c n) : c < e.id := by
  unfold xreadAfter at h
  have h1 : e ∈ log.filter (fun e => decide (c < e.id)) := List.mem_of_mem_take h
  exact of_decide_eq_true (List.mem_filter.mp h1).2

lemma xreadAfter_pairwise {log : List StreamEntry} (c n : Nat)
    (h : (log.map StreamEntry.id).Pairwise (· < ·)) :
    ((xreadAfter log c n).map StreamEntry.id).Pairwise (· < ·) := by
  have hsub : List.Sublist (xreadAfter log c n) log :=
    List.Sublist.trans (List.take_sublist _ _) (List.filter_sublist _)
  exact h.sublist (hsub.map StreamEntry.id)

/-- Claim C10: in each direction, the batch loop leaves the cursor at
the id of the last record read from the source, for every transport
oracle — i.e. even when some id-preserving appends raised, duplicate
rejection and genuine transport failure alike being swallowed by the
bare except — and every record of the batch ends at or below the new
cursor, so no later read of the source from that cursor (of any log
contents and any batch size) ever returns its id again: a record whose
append failed for a non-duplicate reason is never replayed to the
counterpart. -/
theorem C10_cursor_advances_past_failures (tf : Nat → Bool) (s : SyncState)
    (hconn : s.vpsConnected = true) :
    ((syncLocalToVps tf s).localLastId
        = lastIdD (xreadAfter s.localLog s.localLastId 100) s.localLastId ∧
      ((s.localLog.map StreamEntry.id).Pairwise (· < ·) →
        ∀ e ∈ xreadAfter s.localLog s.localLastId 100,
          e.id ≤ (syncLocalToVps tf s).localLastId ∧
          ∀ (log : List StreamEntry) (cnt : Nat),
            e.id ∉ (xreadAfter log (syncLocalToVps tf s).localLastId cnt).map StreamEntry.id)) ∧
    ((syncVpsToLocal tf s).vpsLastId
        = lastIdD (xreadAfter s.vpsLog s.vpsLastId 100) s.vpsLastId ∧
      ((s.vpsLog.map StreamEntry.id).Pairwise (· < ·) →
        ∀ e ∈ xreadAfter s.vpsLog s.vpsLastId 100,
          e.id ≤ (syncVpsToLocal tf s).vpsLastId ∧
          ∀ (log : List StreamEntry) (cnt : Nat),
            e.id ∉ (xreadAfter log (syncVpsToLocal tf s).vpsLastId cnt).map StreamEntry.id)) := by
  have hcur1 : (syncLocalToVps tf s).localLastId
      = lastIdD (xreadAfter s.localLog s.localLastId 100) s.localLastId := by
    simp only [syncLocalToVps, hconn]
    simpa using foldl_syncBatchStep_snd tf (xreadAfter s.localLog s.localLastId 100)
      (s.vpsLog, s.localLastId)
  have hcur2 : (syncVpsToLocal tf s).vpsLastId
      = lastIdD (xreadAfter s.vpsLog s.vpsLastId 100) s.vpsLastId := by
    simp only [syncVpsToLocal, hconn]
    simpa using foldl_syncBatchStep_snd tf (xreadAfter s.vpsLog s.vpsLastId 100)
      (s.localLog, s.vpsLastId)
  refine ⟨⟨hcur1, ?_⟩, ⟨hcur2, ?_⟩⟩
  · intro hsorted e he
    have hle : e.id ≤ (syncLocalToVps tf s).localLastId := by
      rw [hcur1]
      exact le_lastIdD _ _ (xreadAfter_pairwise _ _ hsorted) e he
    refine ⟨hle, ?_⟩
    intro log cnt hmem
    rcases List.mem_map.mp hmem with ⟨e2, he2, hid⟩
    have := mem_xreadAfter_lt he2
    omega
  · intro hsorted e he
    have hle : e.id ≤ (syncVpsToLocal tf s).vpsLastId := by
      rw [hcur2]
      exact le_lastIdD _ _ (xreadAfter_pairwise _ _ hsorted) e he
    refine ⟨hle, ?_⟩
    intro log cnt hmem
    rcases List.mem_map.mp hmem with ⟨e2, he2, hid⟩
    have := mem_xreadAfter_lt he2
    omega

/-- Witness for C10 at a concrete state: local log ids [5, 7] with
cursor 4, VPS log ids [6] with cursor 0, VPS connected, and a transport
oracle that fails the append of id 7; the cursor still reaches 7 and 5
respectively 6 are never re-read. -/
theorem C10_cursor_advances_past_failures_witness :
    (syncLocalToVps (fun i => decide (i = 7))
        { localLog := [⟨5, "a"⟩, ⟨7, "b"⟩], vpsLog := [⟨6, "c"⟩],
          localLastId := 4, vpsLastId := 0, vpsConnected := true }).localLastId = 7 ∧
    (7 : Nat) ∉ (xreadAfter [(⟨5, "a"⟩ : StreamEntry), ⟨7, "b"⟩] 7 100).map StreamEntry.id := by
  have h := C10_cursor_advances_past_failures (fun i => decide (i = 7))
    { localLog := [⟨5, "a"⟩, ⟨7, "b"⟩], vpsLog := [⟨6, "c"⟩],
      localLastId := 4, vpsLastId := 0, vpsConnected := true } rfl
  constructor
  · rw [h.1.1]
    decide
  · have hmem : (⟨7, "b"⟩ : StreamEntry) ∈ xreadAfter [(⟨5, "a"⟩ : StreamEntry), ⟨7, "b"⟩] 4 100 := by
      decide
    have h2 := (h.1.2 (by decide) ⟨7, "b"⟩ hmem).2 [(⟨5, "a"⟩ : StreamEntry), ⟨7, "b"⟩] 100
    have hcur : (syncLocalToVps (fun i => decide (i = 7))
        { localLog := [⟨5, "a"⟩, ⟨7, "b"⟩], vpsLog := [⟨6, "c"⟩],
          localLastId := 4, vpsLastId := 0, vpsConnected := true }).localLastId = 7 := by
      rw [h.1.1]; decide
    rw [hcur] at h2
    exact h2

/-- Claim C4: when the durable append fails (and the overflow disk
itself is writable), `send` appends exactly one serialized line — the
message — to the overflow store, and the failure is surfaced to the
caller as the `none` return value, distinguishable from every successful
record id. -/
theorem C4_append_failure_goes_to_overflow
    (opFails : Nat → Bool) (streamId : String) (fallback0 : List String) (p : Payload)
    (hfail : opFails 0 = true) :
    (sendPayload opFails false streamId fallback0 p).fallback
        = fallback0 ++ [serializePayload p] ∧
    (sendPayload opFails false streamId fallback0 p).result = none ∧
    ∀ rid : String, (sendPayload opFails false streamId fallback0 p).result ≠ some rid := by
  simp [sendPayload, hfail]

/-- Witness for C4: a concrete send whose append fails lands the
serialized message as the single new overflow line and returns none. -/
theorem C4_append_failure_goes_to_overflow_witness :
    (sendPayload (fun _ => true) false "1-0" [] ⟨"u", "t", "a", "b", "ping", "x"⟩).fallback
        = ["u|t|a|b|ping|x"] ∧
    (sendPayload (fun _ => true) false "1-0" [] ⟨"u", "t", "a", "b", "ping", "x"⟩).result = none := by
  have h := C4_append_failure_goes_to_overflow (fun _ => true) "1-0" []
    ⟨"u", "t", "a", "b", "ping", "x"⟩ rfl
  exact ⟨h.1, h.2.1⟩

/-- Claim C5: a successful `send` returns the broker-assigned record id
and issues exactly three broker calls, in this order: first the durable
append to the stream, then the broadcast on the global channel
`bicameral:realtime`, then the broadcast on the directed channel named
by the (sender, recipient) pair — so the append happens before both
broadcasts and the message goes out on exactly those two channels. -/
theorem C5_append_before_two_broadcasts
    (opFails : Nat → Bool) (fbw : Bool) (streamId : String)
    (fallback0 : List String) (p : Payload)
    (h0 : opFails 0 = false) (h1 : opFails 1 = false) (h2 : opFails 2 = false) :
    (sendPayload opFails fbw streamId fallback0 p).result = some streamId ∧
    (sendPayload opFails fbw streamId fallback0 p).trace
        = [RedisOp.xaddOp streamKey (serializePayload p),
           RedisOp.publishOp realtimeChannel (serializePayload p),
           RedisOp.publishOp (directedChannel p.fromAgent p.toAgent) (serializePayload p)] ∧
    (sendPayload opFails fbw streamId fallback0 p).fallback = fallback0 := by
  simp [sendPayload, h0, h1, h2]

/-- Witness for C5 at a concrete successful send. -/
theorem C5_append_before_two_broadcasts_witness :
    (sendPayload (fun _ => false) false "7-0" [] ⟨"u", "t", "a", "b", "ping", "x"⟩).result
        = some "7-0" ∧
    (sendPayload (fun _ => false) false "7-0" [] ⟨"u", "t", "a", "b", "ping", "x"⟩).trace
        = [RedisOp.xaddOp streamKey "u|t|a|b|ping|x",
           RedisOp.publishOp realtimeChannel "u|t|a|b|ping|x",
           RedisOp.publishOp (directedChannel "a" "b") "u|t|a|b|ping|x"] := by
  have h := C5_append_before_two_broadcasts (fun _ => false) false "7-0" []
    ⟨"u", "t", "a", "b", "ping", "x"⟩ rfl rfl rfl
  exact ⟨h.1, h.2.1⟩

/-- Claim C6: for a subscribing agent `a`, an arriving batch is
delivered to the callback exactly through the filter, and a message `m`
is delivered if and only if (`m.to` equals `a` or `m.to` equals the
sentinel `all`) and `m.from` differs from `a`. -/
theorem C6_delivery_iff_addressed_not_self (a : String) (ps : List Payload) :
    (listenLoop a [ListenStep.batch ps, ListenStep.interrupt] []).2
        = ps.filter (listenFilter a) ∧
    ∀ m : Payload,
      m ∈ (listenLoop a [ListenStep.batch ps, ListenStep.interrupt] []).2 ↔
        m ∈ ps ∧ (m.toAgent = a ∨ m.toAgent = "all") ∧ m.fromAgent ≠ a := by
  have hrun : (listenLoop a [ListenStep.batch ps, ListenStep.interrupt] []).2
      = ps.filter (listenFilter a) := by
    simp [listenLoop]
  refine ⟨hrun, ?_⟩
  intro m
  rw [hrun]
  simp only [List.mem_filter, listenFilter, Bool.and_eq_true, Bool.or_eq_true,
    beq_iff_eq, bne_iff_ne, ne_eq]
  tauto

/-! ## Claim C3: failover behavior of publish and subscribe -/

/-- Counterexample to claim C3 at a concrete input.  The claim says that
on a connection loss during publish the Bus re-invokes the Connection
Resolver and retries the operation once, falling back to disk only when
the second attempt also fails.  In this run the very first (and only)
append attempt fails, yet the message is already in the overflow store
and the call has returned `none`, with exactly one append attempt made
and zero resolver re-invocations — there is no retry path in `send`. -/
theorem C3_publish_retry_counterexample :
    (sendPayload (fun i => decide (i = 0)) false "5-0" []
        ⟨"u", "t", "a", "b", "ping", "x"⟩).fallback = ["u|t|a|b|ping|x"] ∧
    (sendPayload (fun i => decide (i = 0)) false "5-0" []
        ⟨"u", "t", "a", "b", "ping", "x"⟩).result = none ∧
    (sendPayload (fun i => decide (i = 0)) false "5-0" []
        ⟨"u", "t", "a", "b", "ping", "x"⟩).xaddAttempts = 1 ∧
    (sendPayload (fun i => decide (i = 0)) false "5-0" []
        ⟨"u", "t", "a", "b", "ping", "x"⟩).resolverCalls = 0 ∧
    ¬ ((sendPayload (fun i => decide (i = 0)) false "5-0" []
          ⟨"u", "t", "a", "b", "ping", "x"⟩).fallback ≠ [] →
        2 ≤ (sendPayload (fun i => decide (i = 0)) false "5-0" []
          ⟨"u", "t", "a", "b", "ping", "x"⟩).xaddAttempts ∧
        1 ≤ (sendPayload (fun i => decide (i = 0)) false "5-0" []
          ⟨"u", "t", "a", "b", "ping", "x"⟩).resolverCalls) := by
  refine ⟨?_, ?_, ?_, ?_, ?_⟩ <;> decide

/-- Claim C3 as amended: on a failure during publish the Bus performs no
retry and never re-invokes the Connection Resolver — the single failed
attempt immediately falls back to the on-disk overflow store and the
call returns `none`; on a connection loss during subscribe the Bus does
re-invoke the Connection Resolver, after which it resumes listening
(once per loss, indefinitely often, not once overall), and a connection
error reaches the caller of subscribe only when the resolver itself
finds no endpoint available. -/
theorem C3_amended_failover_behavior :
    (∀ (f : Nat → Bool) (sid : String) (fb0 : List String) (p : Payload),
      (sendPayload f false sid fb0 p).xaddAttempts = 1 ∧
      (sendPayload f false sid fb0 p).resolverCalls = 0 ∧
      (f 0 = true →
        (sendPayload f false sid fb0 p).fallback = fb0 ++ [serializePayload p] ∧
        (sendPayload f false sid fb0 p).result = none)) ∧
    (∀ (a : String) (live : Endpoint → Bool) (rest : List ListenStep)
        (acc : List Payload) (e : Endpoint),
      connectRedis live = Except.ok e →
      listenLoop a (ListenStep.connLost live :: rest) acc = listenLoop a rest acc) ∧
    (∀ (a : String) (live : Endpoint → Bool) (rest : List ListenStep) (acc : List Payload),
      connectRedis live = Except.error ConnectError.noRedisAvailable →
      listenLoop a (ListenStep.connLost live :: rest) acc
        = (ListenOutcome.raisedNoRedis, acc)) := by
  refine ⟨?_, ?_, ?_⟩
  · intro f sid fb0 p
    by_cases h0 : f 0 = true
    · refine ⟨?_, ?_, ?_⟩ <;> simp [sendPayload, h0]
    · rw [Bool.not_eq_true] at h0
      by_cases h1 : f 1 = true
      · refine ⟨?_, ?_, ?_⟩ <;> simp [sendPayload, h0, h1]
      · rw [Bool.not_eq_true] at h1
        by_cases h2 : f 2 = true
        · refine ⟨?_, ?_, ?_⟩ <;> simp [sendPayload, h0, h1, h2]
        · rw [Bool.not_eq_true] at h2
          refine ⟨?_, ?_, ?_⟩ <;> simp [sendPayload, h0, h1, h2]
  · intro a live rest acc e h
    simp [listenLoop, h]
  · intro a live rest acc h
    simp [listenLoop, h]

/-- Witness for the amended C3: a publish whose single append attempt
fails goes straight to overflow with no resolver call; a listener that
loses its connection while the local broker still answers resumes and
later stops on interrupt; one that loses its connection when no endpoint
answers raises. -/
theorem C3_amended_failover_behavior_witness :
    (sendPayload (fun i => decide (i = 0)) false "5-0" []
        ⟨"u", "t", "a", "b", "ping", "x"⟩).resolverCalls = 0 ∧
    listenLoop "a" [ListenStep.connLost (fun _ => true), ListenStep.interrupt] []
        = (ListenOutcome.stopped, []) ∧
    listenLoop "a" [ListenStep.connLost (fun _ => false)] []
        = (ListenOutcome.raisedNoRedis, []) := by
  refine ⟨?_, ?_, ?_⟩
  · exact (C3_amended_failover_behavior.1 (fun i => decide (i = 0)) "5-0" []
      ⟨"u", "t", "a", "b", "ping", "x"⟩).2.1
  · rw [C3_amended_failover_behavior.2.1 "a" (fun _ => true) [ListenStep.interrupt] []
      localEndpoint (connectRedis_local_live _ rfl)]
    rfl
  · exact C3_amended_failover_behavior.2.2 "a" (fun _ => false) [] []
      (connectRedis_none_live _ rfl rfl)

/-! ## Claim C9: the local-only publish scenario -/

/-- Counterexample to claim C9 at the spec's own concrete input.  In
local-only mode — the local broker answering, the VPS not — the resolver
returns the local handle and the publish succeeds against the local
broker, so `send` returns the record id; but the overflow file is
untouched: the claimed "the message also appears in the overflow file"
is false, because `_save_to_fallback` runs only on the failure path. -/
theorem C9_local_only_scenario_counterexample :
    connectRedis (fun e => e.host == "localhost") = Except.ok localEndpoint ∧
    (send (fun _ => false) false "1700000000000-0" "uuid-1" "2025-01-01T00:00:00" []
        "a" "b" "ping" "x").result = some "1700000000000-0" ∧
    (send (fun _ => false) false "1700000000000-0" "uuid-1" "2025-01-01T00:00:00" []
        "a" "b" "ping" "x").fallback = [] ∧
    serializePayload ⟨"uuid-1", "2025-01-01T00:00:00", "a", "b", "ping", "x"⟩ ∉
      (send (fun _ => false) false "1700000000000-0" "uuid-1" "2025-01-01T00:00:00" []
        "a" "b" "ping" "x").fallback := by
  refine ⟨rfl, ?_, ?_, ?_⟩ <;> decide

/-- Claim C9 as amended: publishing the message in local-only mode (the
local broker reachable, the remote not) resolves to the local endpoint
and returns a record id, and the message does not appear in the overflow
file — the overflow store is written only when the send fails. -/
theorem C9_amended_local_only_publish (live : Endpoint → Bool) (f : Nat → Bool)
    (fbw : Bool) (sid uuid ts : String) (fb0 : List String)
    (agentName toAgent messageType content : String)
    (hlive : live localEndpoint = true)
    (h0 : f 0 = false) (h1 : f 1 = false) (h2 : f 2 = false) :
    connectRedis live = Except.ok localEndpoint ∧
    (send f fbw sid uuid ts fb0 agentName toAgent messageType content).result = some sid ∧
    (send f fbw sid uuid ts fb0 agentName toAgent messageType content).fallback = fb0 := by
  refine ⟨connectRedis_local_live live hlive, ?_, ?_⟩ <;>
    simp [send, sendPayload, h0, h1, h2]

/-- Witness for the amended C9 at the spec's concrete message. -/
theorem C9_amended_local_only_publish_witness :
    connectRedis (fun e => e.host == "localhost") = Except.ok localEndpoint ∧
    (send (fun _ => false) false "1-0" "u" "t" [] "a" "b" "ping" "x").result = some "1-0" ∧
    (send (fun _ => false) false "1-0" "u" "t" [] "a" "b" "ping" "x").fallback = [] :=
  C9_amended_local_only_publish (fun e => e.host == "localhost") (fun _ => false)
    false "1-0" "u" "t" [] "a" "b" "ping" "x" (by decide) rfl rfl rfl

lemma runIter_disconnected (o : IterOracle) (d : DaemonState)
    (h : d.sync.vpsConnected = false) :
    (runIter o d).2 = [] ∧ (runIter o d).1.sync = d.sync ∧
    (runIter o d).1.persisted = d.persisted := by
  simp [runIter, syncLocalToVpsRun, syncVpsToLocalRun, h]
  by_cases hi : o.interrupt = true <;> simp [hi]

lemma runDaemon_disconnected (sched : List IterOracle) :
    ∀ (d : DaemonState), d.sync.vpsConnected = false →
      (runDaemon d sched).2 = [] ∧
      (runDaemon d sched).1.sync = d.sync ∧
      (runDaemon d sched).1.persisted = d.persisted := by
  induction sched with
  | nil => intro d _; exact ⟨rfl, rfl, rfl⟩
  | cons o rest ih =>
      intro d h
      by_cases hr : d.running = false
      · simp [runDaemon, hr]
      · rw [Bool.not_eq_false] at hr
        have hone := runIter_disconnected o d h
        have hnext := ih (runIter o d).1 (by rw [hone.2.1]; exact h)
        simp only [runDaemon, hr]
        refine ⟨?_, ?_, ?_⟩
        · simp [hone.1, hnext.1]
        · simp [hnext.2.1, hone.2.1]
        · simp [hnext.2.2, hone.2.2]

/-- Claim C7, evaluated on the failing configuration.  When the daemon
starts with the VPS unreachable it holds no VPS handle (the Disconnected
state), and then — contrary to the claim — it never re-attempts the
connection: over every schedule of loop iterations, however long and
with the VPS answering probes throughout, the daemon issues not a single
connection probe and remains disconnected, because both sync functions
return immediately on a missing handle and `_reconnect_vps` is reachable
only from exception paths that require the handle to be present (and
itself returns at once when it is).  The logs, cursors and persisted
state do not change either: the daemon is stuck in local-only mode. -/
theorem C7_no_reconnect_when_disconnected (d : DaemonState) (sched : List IterOracle)
    (hdisc : d.sync.vpsConnected = false) :
    (runDaemon d sched).2 = [] ∧
    DEvent.probeVps ∉ (runDaemon d sched).2 ∧
    (runDaemon d sched).1.sync.vpsConnected = false ∧
    (runDaemon d sched).1.sync = d.sync := by
  have h := runDaemon_disconnected sched d hdisc
  refine ⟨h.1, ?_, ?_, h.2.1⟩
  · rw [h.1]
    exact List.not_mem_nil _
  · rw [h.2.1]
    exact hdisc

/-- Witness for C7: a daemon that starts disconnected, with records
waiting on both sides and the VPS reachable at every one of three
iterations, still probes nothing and stays disconnected. -/
theorem C7_no_reconnect_when_disconnected_witness :
    (runDaemon
        { sync := { localLog := [⟨1, "a"⟩], vpsLog := [⟨2, "b"⟩],
                    localLastId := 0, vpsLastId := 0, vpsConnected := false },
          persisted := none, running := true }
        [{ localReadFails := false, vpsReadFails := false,
           transportFails := fun _ => false, saveFails := false,
           vpsReachable := true, interrupt := false },
         { localReadFails := false, vpsReadFails := false,
           transportFails := fun _ => false, saveFails := false,
           vpsReachable := true, interrupt := false },
         { localReadFails := false, vpsReadFails := false,
           transportFails := fun _ => false, saveFails := false,
           vpsReachable := true, interrupt := false }]).2 = [] ∧
    (runDaemon
        { sync := { localLog := [⟨1, "a"⟩], vpsLog := [⟨2, "b"⟩],
                    localLastId := 0, vpsLastId := 0, vpsConnected := false },
          persisted := none, running := true }
        [{ localReadFails := false, vpsReadFails := false,
           transportFails := fun _ => false, saveFails := false,
           vpsReachable := true, interrupt := false },
         { localReadFails := false, vpsReadFails := false,
           transportFails := fun _ => false, saveFails := false,
           vpsReachable := true, interrupt := false },
         { localReadFails := false, vpsReadFails := false,
           transportFails := fun _ => false, saveFails := false,
           vpsReachable := true, interrupt := false }]).1.sync.vpsConnected = false := by
  have h := C7_no_reconnect_when_disconnected
    { sync := { localLog := [⟨1, "a"⟩], vpsLog := [⟨2, "b"⟩],
                localLastId := 0, vpsLastId := 0, vpsConnected := false },
      persisted := none, running := true }
    [{ localReadFails := false, vpsReadFails := false,
       transportFails := fun _ => false, saveFails := false,
       vpsReachable := true, interrupt := false },
     { localReadFails := false, vpsReadFails := false,
       transportFails := fun _ => false, saveFails := false,
       vpsReachable := true, interrupt := false },
     { localReadFails := false, vpsReadFails := false,
       transportFails := fun _ => false, saveFails := false,
       vpsReachable := true, interrupt := false }] rfl
  exact ⟨h.1, h.2.2.1⟩

/-! ## Claim C8: termination and shutdown persistence of the run loop -/

lemma syncLocalToVpsRun_running (o : IterOracle) (d : DaemonState) :
    (syncLocalToVpsRun o d).1.running = d.running := by
  unfold syncLocalToVpsRun reconnectVps saveSyncState
  dsimp only
  repeat' split
  all_goals rfl

lemma syncVpsToLocalRun_running (o : IterOracle) (d : DaemonState) :
    (syncVpsToLocalRun o d).1.running = d.running := by
  unfold syncVpsToLocalRun reconnectVps saveSyncState
  dsimp only
  repeat' split
  all_goals rfl

lemma runIter_running (o : IterOracle) (d : DaemonState) (h : o.interrupt = false) :
    (runIter o d).1.running = d.running := by
  simp only [runIter, h]
  simp only [Bool.false_eq_true, if_false]
  rw [syncVpsToLocalRun_running, syncLocalToVpsRun_running]

/-- Counterexample to claim C8 at a concrete execution.  One record is
waiting in the local log; during the single iteration both directions
sync it (advancing both cursors to 1), the batch's cursor persist fails
— a tolerated `PersistenceFailure`, swallowed by `_save_sync_state` —
and a `KeyboardInterrupt` arrives during the sleep, so the loop exits
cleanly.  At return the in-memory cursors are (1, 1) but nothing was
ever persisted: the run loop performs no persist on the way out, so the
final Cursor state is not persisted before `run` returns, contrary to
the claim. -/
theorem C8_shutdown_persist_counterexample :
    (runDaemon
        { sync := { localLog := [⟨1, "a"⟩], vpsLog := [],
                    localLastId := 0, vpsLastId := 0, vpsConnected := true },
          persisted := none, running := true }
        [{ localReadFails := false, vpsReadFails := false,
           transportFails := fun _ => false, saveFails := true,
           vpsReachable := true, interrupt := true }]).1.running = false ∧
    (runDaemon
        { sync := { localLog := [⟨1, "a"⟩], vpsLog := [],
                    localLastId := 0, vpsLastId := 0, vpsConnected := true },
          persisted := none, running := true }
        [{ localReadFails := false, vpsReadFails := false,
           transportFails := fun _ => false, saveFails := true,
           vpsReachable := true, interrupt := true }]).1.sync.localLastId = 1 ∧
    (runDaemon
        { sync := { localLog := [⟨1, "a"⟩], vpsLog := [],
                    localLastId := 0, vpsLastId := 0, vpsConnected := true },
          persisted := none, running := true }
        [{ localReadFails := false, vpsReadFails := false,
           transportFails := fun _ => false, saveFails := true,
           vpsReachable := true, interrupt := true }]).1.sync.vpsLastId = 1 ∧
    (runDaemon
        { sync := { localLog := [⟨1, "a"⟩], vpsLog := [],
                    localLastId := 0, vpsLastId := 0, vpsConnected := true },
          persisted := none, running := true }
        [{ localReadFails := false, vpsReadFails := false,
           transportFails := fun _ => false, saveFails := true,
           vpsReachable := true, interrupt := true }]).1.persisted = none ∧
    ¬ ((runDaemon
        { sync := { localLog := [⟨1, "a"⟩], vpsLog := [],
                    localLastId := 0, vpsLastId := 0, vpsConnected := true },
          persisted := none, running := true }
        [{ localReadFails := false, vpsReadFails := false,
           transportFails := fun _ => false, saveFails := true,
           vpsReachable := true, interrupt := true }]).1.persisted
        = some ((runDaemon
          { sync := { localLog := [⟨1, "a"⟩], vpsLog := [],
                      localLastId := 0, vpsLastId := 0, vpsConnected := true },
            persisted := none, running := true }
          [{ localReadFails := false, vpsReadFails := false,
             transportFails := fun _ => false, saveFails := true,
             vpsReachable := true, interrupt := true }]).1.sync.localLastId,
          (runDaemon
          { sync := { localLog := [⟨1, "a"⟩], vpsLog := [],
                      localLastId := 0, vpsLastId := 0, vpsConnected := true },
            persisted := none, running := true }
          [{ localReadFails := false, vpsReadFails := false,
             transportFails := fun _ => false, saveFails := true,
             vpsReachable := true, interrupt := true }]).1.sync.vpsLastId)) := by
  refine ⟨rfl, rfl, rfl, rfl, by decide⟩

/-- Claim C8 as amended: the run loop has no terminal state — without an
external interrupt it never clears `running`, over any schedule — and an
interrupt stops it at the end of that iteration; but a clean stop
persists nothing: the stop path only clears the flag, leaving the
persisted cursor blob and the emitted events exactly those of the same
iteration without the interrupt, so the cursors persisted at return are
whatever the last successful in-batch save wrote, not necessarily the
final ones. -/
theorem C8_amended_no_shutdown_persist :
    (∀ (d : DaemonState) (sched : List IterOracle),
      d.running = true → (∀ o ∈ sched, o.interrupt = false) →
      (runDaemon d sched).1.running = true) ∧
    (∀ (o : IterOracle) (d : DaemonState),
      o.interrupt = true →
      (runIter o d).1.running = false ∧
      (runIter o d).1.persisted = (runIter { o with interrupt := false } d).1.persisted ∧
      (runIter o d).2 = (runIter { o with interrupt := false } d).2) := by
  constructor
  · intro d sched
    induction sched generalizing d with
    | nil => intro hr _; exact hr
    | cons o rest ih =>
        intro hr hno
        have ho : o.interrupt = false := hno o (List.mem_cons_self _ _)
        have hrest : ∀ o2 ∈ rest, o2.interrupt = false :=
          fun o2 h2 => hno o2 (List.mem_cons_of_mem _ h2)
        simp only [runDaemon, hr]
        simp only [Bool.true_eq_false, if_false]
        exact ih (runIter o d).1 (by rw [runIter_running o d ho]; exact hr) hrest
  · intro o d h
    refine ⟨?_, ?_, ?_⟩
    · simp [runIter, h]
    · simp only [runIter, h]
      rfl
    · simp only [runIter, h]
      rfl

/-- Witness for the amended C8: a two-iteration schedule without an
interrupt leaves the daemon running, and an interrupted iteration ends
with the flag cleared and the same persisted blob as its uninterrupted
twin. -/
theorem C8_amended_no_shutdown_persist_witness :
    (runDaemon
        { sync := { localLog := [], vpsLog := [],
                    localLastId := 0, vpsLastId := 0, vpsConnected := true },
          persisted := none, running := true }
        [{ localReadFails := false, vpsReadFails := false,
           transportFails := fun _ => false, saveFails := false,
           vpsReachable := true, interrupt := false }]).1.running = true ∧
    (runIter
        { localReadFails := false, vpsReadFails := false,
          transportFails := fun _ => false, saveFails := true,
          vpsReachable := true, interrupt := true }
        { sync := { localLog := [⟨1, "a"⟩], vpsLog := [],
                    localLastId := 0, vpsLastId := 0, vpsConnected := true },
          persisted := none, running := true }).1.running = false := by
  constructor
  · refine C8_amended_no_shutdown_persist.1
      { sync := { localLog := [], vpsLog := [],
                  localLastId := 0, vpsLastId := 0, vpsConnected := true },
        persisted := none, running := true }
      [{ localReadFails := false, vpsReadFails := false,
         transportFails := fun _ => false, saveFails := false,
         vpsReachable := true, interrupt := false }] rfl ?_
    intro o ho
    simp only [List.mem_singleton] at ho
    rw [ho]
  · exact (C8_amended_no_shutdown_persist.2
      { localReadFails := false, vpsReadFails := false,
        transportFails := fun _ => false, saveFails := true,
        vpsReachable := true, interrupt := true }
      { sync := { localLog := [⟨1, "a"⟩], vpsLog := [],
                  localLastId := 0, vpsLastId := 0, vpsConnected := true },
        persisted := none, running := true } rfl).1

end Bicameral
